import Mathlib

/-!
# Shallow embedding of the `shoehive-client-react` Connection Manager

This file embeds the WebSocket client class of the repository
(`src/hooks/ShoehiveClient.js` / `.jsx` and the variant client in
`src/unnamed/part_000`) together with the React hook `useShoehive` and the
default context value of `src/context/ShoehiveContext.js`, and proves the
frozen claims about them.

Modelling conventions:
* callbacks are opaque identities (`Nat`), matching JavaScript reference
  equality on function objects;
* a parsed inbound JSON object is a `Msg`: its routing field `type` plus an
  opaque body identifying the rest of the object;
* observable side effects (calls to `triggerEvent`, callback invocations,
  the React state-change callbacks of the `.js`/`.jsx` variant) are returned
  as an explicit effect trace;
* JavaScript numbers are embedded as `ℚ` (the backoff arithmetic
  `delay * 1.5^k` is exact in binary floating point for the magnitudes the
  client produces, so `ℚ` is faithful here);
* `JSON.parse` is abstracted by an `Inbound` payload that either is a parsed
  `Msg` or is malformed (throws), and `socket.send`/`JSON.stringify` failure
  by a boolean oracle, since the repository treats both as opaque.
-/

namespace Shoehive

/-- WebSocket readyState values (CONNECTING = 0, OPEN = 1, CLOSING = 2,
CLOSED = 3). -/
inductive ReadyState
  | CONNECTING
  | OPEN
  | CLOSING
  | CLOSED
deriving DecidableEq, Repr

/-- A transport handle: an identity distinguishing distinct `new WebSocket`
objects, and its readyState. -/
structure Socket where
  id : Nat
  readyState : ReadyState
deriving DecidableEq, Repr

/-- A parsed inbound server message: the `type` routing field plus an opaque
identity for the rest of the JSON object (two `Msg`s are the same object iff
both components agree). -/
structure Msg where
  type : String
  body : Nat
deriving DecidableEq, Repr

/-- Event payloads passed to `triggerEvent` by the client code:
`noData` (e.g. the "connected" event), a full `Msg`, the `{code, reason}`
object of the close handler, or one of the `{type: kind, message, error}`
error objects built by the `part_000` variant. -/
inductive Payload
  | noData
  | msg (m : Msg)
  | closeInfo (code : Nat) (reason : String)
  | errObj (kind : String)
deriving DecidableEq, Repr

/-- One observable effect of running a client method:
`fired e p` records a call `this.triggerEvent(e, p)`;
`invoke cb p` records `triggerEvent` calling the subscribed callback `cb`
with payload `p`;
`stateCb cb m` records the `.js`/`.jsx` variant calling one of the direct
`onPlayerStateChange`/`onLobbyStateChange`/`onTableStateChange` callbacks. -/
inductive Eff
  | fired (event : String) (payload : Payload)
  | invoke (cb : Nat) (payload : Payload)
  | stateCb (cb : Nat) (m : Msg)
deriving DecidableEq, Repr

/-- The mutable fields of a `ShoehiveClient` instance (both variants; the
`onPlayerStateChange`/... fields exist only in the `.js`/`.jsx` variant and
are simply never touched by the `part_000` functions). `eventHandlers` is
the object used as a map from event name to callback array. -/
structure ClientState where
  socket : Option Socket
  connected : Bool
  reconnectAttempts : Nat
  maxReconnectAttempts : Nat
  reconnectDelay : ℚ
  autoReconnect : Bool
  playerState : Option Msg
  lobbyState : Option Msg
  tableState : Option Msg
  eventHandlers : List (String × List Nat)
  onPlayerStateChange : Option Nat
  onLobbyStateChange : Option Nat
  onTableStateChange : Option Nat
deriving DecidableEq

/-- Reading `this.eventHandlers[event]`: a missing key behaves as an empty
callback list (`triggerEvent` skips it, `on` initialises it to `[]`). -/
def getHandlers : List (String × List Nat) → String → List Nat
  | [], _ => []
  | (k, v) :: rest, e => if k = e then v else getHandlers rest e

/-- Writing `this.eventHandlers[event] = l`. -/
def setHandlers : List (String × List Nat) → String → List Nat → List (String × List Nat)
  | [], e, l => [(e, l)]
  | (k, v) :: rest, e, l =>
      if k = e then (e, l) :: rest else (k, v) :: setHandlers rest e l

/-- Function `triggerEvent(event, data)`: if a handler list exists it calls every
registered callback in array (= registration) order with the payload. The
trace records the `triggerEvent` call itself followed by each callback
invocation in order. -/
def triggerEvent (st : ClientState) (e : String) (d : Payload) : List Eff :=
  Eff.fired e d :: (getHandlers st.eventHandlers e).map (fun cb => Eff.invoke cb d)

/-- Function `on(event, callback)` (both variants are identical): initialise the
list if absent, then push the callback. (`on` is a reserved token in Lean,
hence the name `onEvent`.) The unsubscribe closure it returns is
`unsubscribe` below. -/
def onEvent (e : String) (cb : Nat) (st : ClientState) : ClientState :=
  { st with eventHandlers :=
      setHandlers st.eventHandlers e (getHandlers st.eventHandlers e ++ [cb]) }

/-- The closure returned by `on(event, callback)`:
`this.eventHandlers[event] = this.eventHandlers[event].filter(cb => cb !== callback)`.
(The `part_000` variant guards with `if (this.eventHandlers[event])`; when the
key is missing `getHandlers` is `[]` and the write is the same no-op list, so
both variants are this one function.) -/
def unsubscribe (e : String) (cb : Nat) (st : ClientState) : ClientState :=
  let l := (getHandlers st.eventHandlers e).filter (fun c => c ≠ cb)
  { st with eventHandlers := setHandlers st.eventHandlers e l }

/-! ## Message-type constants

`ShoehiveClient.js` routes on `CLIENT_MESSAGE_TYPES.PLAYER_STATE` /
`LOBBY_STATE` / `TABLE_STATE` / `ERROR`, re-exported from the external
`shoehive` package. The duplicated in-repository variant
`src/hooks/ShoehiveClient.jsx` writes the same switch with the literal
strings below, and the spec's §8 scenario uses `"lobby:state"`. -/

/-- Modelled from the spec: the external `shoehive` package's
`MessageTypes.PLAYER_STATE` constant is not in this repository; its value is
taken from the literal in the `.jsx` variant's switch. -/
def MSG_PLAYER_STATE : String := "player:state"

/-- Modelled from the spec: `MessageTypes.LOBBY_STATE` of the external
`shoehive` package, value from the `.jsx` literal and the spec's §8
scenario. -/
def MSG_LOBBY_STATE : String := "lobby:state"

/-- Modelled from the spec: `MessageTypes.TABLE_STATE` of the external
`shoehive` package, value from the `.jsx` literal. -/
def MSG_TABLE_STATE : String := "table:state"

/-- Modelled from the spec: `MessageTypes.ERROR` of the external `shoehive`
package, value from the `.jsx` literal. -/
def MSG_ERROR : String := "error"

/-! ## handleMessage -/

/-- Method `handleMessage` of `src/hooks/ShoehiveClient.js` lines 163–199 (the
`.jsx` twin is lines 166–202 with the constants inlined): a switch on
`message.type` that, for the three state types, stores the message in its
slot, fires a fixed camelCase-named event (`"playerState"` etc.) and then
calls the matching `onXStateChange` callback if set; for the error type
fires `"serverError"`; and by default fires an event named by the raw
`message.type`. It never fires a generic `"message"` event. -/
def handleMessageJs (m : Msg) (st : ClientState) : ClientState × List Eff :=
  if m.type = MSG_PLAYER_STATE then
    let st' := { st with playerState := some m }
    (st', triggerEvent st' "playerState" (Payload.msg m) ++
      (match st'.onPlayerStateChange with
       | some cb => [Eff.stateCb cb m]
       | none => []))
  else if m.type = MSG_LOBBY_STATE then
    let st' := { st with lobbyState := some m }
    (st', triggerEvent st' "lobbyState" (Payload.msg m) ++
      (match st'.onLobbyStateChange with
       | some cb => [Eff.stateCb cb m]
       | none => []))
  else if m.type = MSG_TABLE_STATE then
    let st' := { st with tableState := some m }
    (st', triggerEvent st' "tableState" (Payload.msg m) ++
      (match st'.onTableStateChange with
       | some cb => [Eff.stateCb cb m]
       | none => []))
  else if m.type = MSG_ERROR then
    (st, triggerEvent st "serverError" (Payload.msg m))
  else
    (st, triggerEvent st m.type (Payload.msg m))

/-- Method `handleMessage` of the `part_000` client variant (lines 186–207): the
switch only stores the three recognized state types into their slots, then
unconditionally fires the event named by `message.type` with the full
message, and then the generic `"message"` event with the same payload. -/
def handleMessagePart000 (m : Msg) (st : ClientState) : ClientState × List Eff :=
  let st' :=
    if m.type = MSG_PLAYER_STATE then { st with playerState := some m }
    else if m.type = MSG_LOBBY_STATE then { st with lobbyState := some m }
    else if m.type = MSG_TABLE_STATE then { st with tableState := some m }
    else st
  (st', triggerEvent st' m.type (Payload.msg m) ++
        triggerEvent st' "message" (Payload.msg m))

/-- An inbound transport frame: either its text parses (`JSON.parse`
succeeds, giving a `Msg`) or it is malformed (`JSON.parse` throws). -/
inductive Inbound
  | parsed (m : Msg)
  | malformed
deriving DecidableEq, Repr

/-- The `message` listener of `ShoehiveClient.js` (lines 89–96): parse
success dispatches to `handleMessage`; parse failure is caught and only
logged (`console.error`) — no event fires and nothing changes. -/
def onMessageJs : Inbound → ClientState → ClientState × List Eff
  | Inbound.parsed m, st => handleMessageJs m st
  | Inbound.malformed, st => (st, [])

/-- The `message` listener of the `part_000` variant (lines 108–120): parse
success dispatches to `handleMessage`; parse failure is caught and fires an
`"error"` event carrying a `{type: 'parseError', ...}` object. -/
def onMessagePart000 : Inbound → ClientState → ClientState × List Eff
  | Inbound.parsed m, st => handleMessagePart000 m st
  | Inbound.malformed, st => (st, triggerEvent st "error" (Payload.errObj "parseError"))

/-- The names and payloads of the `triggerEvent` calls in a trace, in
order (projects away the individual callback invocations). -/
def firedList (effs : List Eff) : List (String × Payload) :=
  effs.filterMap (fun e =>
    match e with
    | Eff.fired n p => some (n, p)
    | _ => none)

/-! ## Close handler, disconnect, connect, sendCommand -/

/-- The `close` listener (identical reconnect logic in
`ShoehiveClient.js` lines 98–115 and `part_000` lines 122–138): sets
`connected = false`, fires `"disconnected"` with the close code and reason,
and — if `autoReconnect` is on and the attempt counter is below the maximum —
increments the counter and computes
`delay = reconnectDelay * 1.5^(reconnectAttempts - 1)` with the incremented
counter, scheduling `setTimeout(() => this.connect(), delay)`. The returned
`Option ℚ` is the scheduled delay (`none` = no retry scheduled). The
transport handle itself is CLOSED once its close event fires, which the
model records on the stored handle. -/
def closeStep (code : Nat) (reason : String) (st : ClientState) :
    ClientState × List Eff × Option ℚ :=
  let st1 := { st with
    connected := false,
    socket := st.socket.map (fun s => { s with readyState := ReadyState.CLOSED }) }
  let effs := triggerEvent st1 "disconnected" (Payload.closeInfo code reason)
  if st1.autoReconnect ∧ st1.reconnectAttempts < st1.maxReconnectAttempts then
    let st2 := { st1 with reconnectAttempts := st1.reconnectAttempts + 1 }
    let delay := st2.reconnectDelay * ((3 : ℚ) / 2) ^ (st2.reconnectAttempts - 1)
    (st2, effs, some delay)
  else
    (st1, effs, none)

/-- The scheduled retry delays produced by `k` consecutive close events
(a run of consecutive failed connection attempts), in order. -/
def closeDelays : Nat → ClientState → List (Option ℚ)
  | 0, _ => []
  | Nat.succ k, st =>
      let r := closeStep 1006 "" st
      r.2.2 :: closeDelays k r.1

/-- The client state after `k` consecutive close events. -/
def closeIter : Nat → ClientState → ClientState
  | 0, st => st
  | Nat.succ k, st => closeIter k (closeStep 1006 "" st).1

/-- Calling `WebSocket.close()` on a handle: an already CLOSED handle stays CLOSED,
otherwise the handle enters CLOSING. -/
def socketClose (s : Socket) : Socket :=
  { s with readyState :=
      if s.readyState = ReadyState.CLOSED then ReadyState.CLOSED
      else ReadyState.CLOSING }

/-- Method `disconnect()` of `ShoehiveClient.js` lines 126–131: if a handle exists,
set `autoReconnect = false` and call `socket.close()`; the handle reference
is kept. No handle: no-op. -/
def disconnectJs (st : ClientState) : ClientState :=
  match st.socket with
  | none => st
  | some s => { st with autoReconnect := false, socket := some (socketClose s) }

/-- Method `disconnect()` of the `part_000` variant (lines 151–157): if a handle
exists, set `autoReconnect = false`, call `socket.close()` and clear the
reference (`this.socket = null`). No handle: no-op. -/
def disconnectPart000 (st : ClientState) : ClientState :=
  match st.socket with
  | none => st
  | some _ => { st with autoReconnect := false, socket := none }

/-- Method `connect()` of `ShoehiveClient.js` lines 37–121: if a handle exists in
OPEN or CONNECTING state, log and return (no side effect, JS returns
`undefined`). Otherwise construct a new WebSocket (the URL/protocol/header
resolution via the auth strategy affects only the endpoint, not the state
fields the claims are about) and register the four listeners. `fresh` is the
identity of the newly constructed handle; the returned `Bool` records
whether a new handle was constructed. -/
def connectJs (fresh : Nat) (st : ClientState) : ClientState × Bool :=
  match st.socket with
  | some s =>
      if s.readyState = ReadyState.OPEN ∨ s.readyState = ReadyState.CONNECTING then
        (st, false)
      else
        ({ st with socket := some ⟨fresh, ReadyState.CONNECTING⟩ }, true)
  | none => ({ st with socket := some ⟨fresh, ReadyState.CONNECTING⟩ }, true)

/-- Method `connect()` of the `part_000` variant (lines 67–97): the same guard but
returning `false`; otherwise WebSocket construction is wrapped in
`try/catch` — on success listeners are attached and it returns `true`, on a
construction failure it fires an `"error"` event of kind `connectionError`
and returns `false`. `creationOk` is the oracle for whether `new WebSocket`
throws; the result is (state, returned boolean, effects). -/
def connectPart000 (fresh : Nat) (creationOk : Bool) (st : ClientState) :
    ClientState × Bool × List Eff :=
  match st.socket with
  | some s =>
      if s.readyState = ReadyState.CONNECTING ∨ s.readyState = ReadyState.OPEN then
        (st, false, [])
      else if creationOk then
        ({ st with socket := some ⟨fresh, ReadyState.CONNECTING⟩ }, true, [])
      else
        (st, false, triggerEvent st "error" (Payload.errObj "connectionError"))
  | none =>
      if creationOk then
        ({ st with socket := some ⟨fresh, ReadyState.CONNECTING⟩ }, true, [])
      else
        (st, false, triggerEvent st "error" (Payload.errObj "connectionError"))

/-- An outbound command: the flat `{action, ...data}` object built by
`sendCommand` (the `data` association list is spread after the `action`
key; serialization by `JSON.stringify` is abstracted as the object
itself). -/
structure Command where
  action : String
  data : List (String × Nat)
deriving DecidableEq, Repr

/-- Method `sendCommand(action, data)` (identical in `ShoehiveClient.js` lines
139–157 and `part_000` lines 160–178): not connected → log an error and
return `false` (no write, no queueing, and — being a total function of the
state — no exception escapes). Connected → build the flat command, then
`try { socket.send(JSON.stringify(command)); return true }` with a `catch`
returning `false`; `sendOk` is the oracle for whether the synchronous
serialize/write throws. The returned list is the frames written to the
transport. -/
def sendCommand (sendOk : Bool) (action : String) (data : List (String × Nat))
    (st : ClientState) : ClientState × Bool × List Command :=
  if st.connected = false then
    (st, false, [])
  else if sendOk then
    (st, true, [⟨action, data⟩])
  else
    (st, false, [])

/-! ## React context and the useShoehive hook -/

/-- A JavaScript context value as seen by `useContext`: `null` or an
object (identified opaquely). -/
inductive CtxVal
  | null
  | obj (v : Nat)
deriving DecidableEq, Repr

/-- The identity of the default stub object that
`src/context/ShoehiveContext.js` passes to `createContext({...})`: a
non-null object of no-op methods and empty state. -/
def shoehiveDefaultStub : CtxVal := CtxVal.obj 0

/-- Reading `useContext(ShoehiveContext)`: inside a provider subtree it returns the
provider's value, otherwise the context's default value. -/
def useContextModel (defaultVal : CtxVal) (provided : Option Nat) : CtxVal :=
  match provided with
  | some v => CtxVal.obj v
  | none => defaultVal

/-- The `useShoehive` hook of `src/hooks/ShoehiveConstants.js` lines 26–34
(paired with the context of `src/context/ShoehiveContext.js`, whose default
value is the non-null stub object): reads the context and throws
`"useShoehive must be used within a ShoehiveProvider"` only when the value
is falsy (`!context`). -/
def useShoehiveJs (provided : Option Nat) : Except String CtxVal :=
  let context := useContextModel shoehiveDefaultStub provided
  match context with
  | CtxVal.null => Except.error "useShoehive must be used within a ShoehiveProvider"
  | v => Except.ok v

/-- The `useShoehive` hook of the `.jsx` variant, whose own context is
created with `createContext(null)`: the same guard over a `null` default. -/
def useShoehiveJsx (provided : Option Nat) : Except String CtxVal :=
  let context := useContextModel CtxVal.null provided
  match context with
  | CtxVal.null => Except.error "useShoehive must be used within a ShoehiveProvider"
  | v => Except.ok v

/-- A freshly constructed client (`new ShoehiveClient(url)` with default
options), used for concrete witnesses. -/
def initClient : ClientState where
  socket := none
  connected := false
  reconnectAttempts := 0
  maxReconnectAttempts := 5
  reconnectDelay := 1000
  autoReconnect := true
  playerState := none
  lobbyState := none
  tableState := none
  eventHandlers := []
  onPlayerStateChange := none
  onLobbyStateChange := none
  onTableStateChange := none

/-- The state in which the C2 scenario starts: a client whose handle is
OPEN and whose connection is live, with the default options. -/
def c2Start : ClientState :=
  { initClient with socket := some ⟨0, ReadyState.OPEN⟩, connected := true }

/-! ## Helper lemmas -/

theorem getHandlers_setHandlers (tbl : List (String × List Nat)) (e : String)
    (l : List Nat) : getHandlers (setHandlers tbl e l) e = l := by
  induction tbl with
  | nil => simp [setHandlers, getHandlers]
  | cons kv rest ih =>
      obtain ⟨k, v⟩ := kv
      by_cases hk : k = e
      · simp [setHandlers, hk, getHandlers]
      · simpa [setHandlers, hk, getHandlers] using ih

theorem firedList_triggerEvent (st : ClientState) (e : String) (d : Payload) :
    firedList (triggerEvent st e d) = [(e, d)] := by
  simp [firedList, triggerEvent, List.filterMap_cons, List.filterMap_map]

theorem firedList_append (a b : List Eff) :
    firedList (a ++ b) = firedList a ++ firedList b := by
  simp [firedList, List.filterMap_append]

/-- The client state the close handler leaves behind when it schedules a
retry: connection down, handle CLOSED, attempt counter incremented. -/
def closeRetryState (st : ClientState) : ClientState :=
  { st with
    connected := false
    socket := st.socket.map (fun s => { s with readyState := ReadyState.CLOSED })
    reconnectAttempts := st.reconnectAttempts + 1 }

theorem closeStep_retry (st : ClientState) (hA : st.autoReconnect = true)
    (hlt : st.reconnectAttempts < st.maxReconnectAttempts) :
    closeStep 1006 "" st
      = (closeRetryState st,
         triggerEvent st "disconnected" (Payload.closeInfo 1006 ""),
         some (st.reconnectDelay * ((3 : ℚ) / 2) ^ st.reconnectAttempts)) := by
  simp only [closeStep]
  split
  next => rfl
  next hc => exact absurd ⟨hA, hlt⟩ hc

theorem closeStep_exhausted (st : ClientState)
    (h : ¬ (st.autoReconnect = true ∧ st.reconnectAttempts < st.maxReconnectAttempts)) :
    (closeStep 1006 "" st).2.2 = none := by
  simp only [closeStep]
  split
  next hc => exact absurd hc h
  next => rfl

theorem closeDelays_run (k : ℕ) :
    ∀ st : ClientState, st.autoReconnect = true →
    st.reconnectAttempts + k ≤ st.maxReconnectAttempts →
    closeDelays k st
      = (List.range k).map
          (fun i => some (st.reconnectDelay * ((3 : ℚ) / 2) ^ (st.reconnectAttempts + i)))
    ∧ (closeIter k st).reconnectAttempts = st.reconnectAttempts + k
    ∧ (closeIter k st).autoReconnect = st.autoReconnect
    ∧ (closeIter k st).maxReconnectAttempts = st.maxReconnectAttempts
    ∧ (closeIter k st).reconnectDelay = st.reconnectDelay := by
  induction k with
  | zero => intro st hA hle; simp [closeDelays, closeIter]
  | succ k ih =>
      intro st hA hle
      have hlt : st.reconnectAttempts < st.maxReconnectAttempts := by omega
      have hstep := closeStep_retry st hA hlt
      have hA2 : (closeRetryState st).autoReconnect = true := hA
      have hle2 : (closeRetryState st).reconnectAttempts + k
          ≤ (closeRetryState st).maxReconnectAttempts := by
        show st.reconnectAttempts + 1 + k ≤ st.maxReconnectAttempts
        omega
      obtain ⟨ihd, iha, ihA, ihm, ihr⟩ := ih (closeRetryState st) hA2 hle2
      have hD : closeDelays (k + 1) st
          = (closeStep 1006 "" st).2.2 :: closeDelays k (closeStep 1006 "" st).1 := rfl
      have hI : closeIter (k + 1) st = closeIter k (closeStep 1006 "" st).1 := rfl
      refine ⟨?_, ?_, ?_, ?_, ?_⟩
      · rw [hD, hstep]
        dsimp only
        rw [ihd, List.range_succ_eq_map]
        simp only [List.map_cons, List.map_map]
        refine congrArg₂ _ (by simp) ?_
        apply List.map_congr_left
        intro i _
        show some (st.reconnectDelay
            * ((3 : ℚ) / 2) ^ (st.reconnectAttempts + 1 + i))
          = some (st.reconnectDelay * ((3 : ℚ) / 2) ^ (st.reconnectAttempts + (i + 1)))
        have hi : st.reconnectAttempts + 1 + i = st.reconnectAttempts + (i + 1) := by
          omega
        rw [hi]
      · rw [hI, hstep]
        dsimp only
        refine iha.trans ?_
        show st.reconnectAttempts + 1 + k = st.reconnectAttempts + (k + 1)
        omega
      · rw [hI, hstep]
        dsimp only
        exact ihA
      · rw [hI, hstep]
        dsimp only
        exact ihm
      · rw [hI, hstep]
        dsimp only
        exact ihr

/-! ## Claim theorems -/

/-- Claim C1 (counterexample): in the `ShoehiveClient.js` variant, the inbound
message `{type: "player:state", ...}` produces exactly one `triggerEvent`
call, named `"playerState"`: no event named by the exact type string
`"player:state"` fires and no generic `"message"` event fires, refuting the
claim as stated. -/
theorem C1_counterexample :
    firedList (handleMessageJs ⟨"player:state", 7⟩ initClient).2
      = [("playerState", Payload.msg ⟨"player:state", 7⟩)]
    ∧ (firedList (handleMessageJs ⟨"player:state", 7⟩ initClient).2).count
        ("player:state", Payload.msg ⟨"player:state", 7⟩) = 0
    ∧ (firedList (handleMessageJs ⟨"player:state", 7⟩ initClient).2).count
        ("message", Payload.msg ⟨"player:state", 7⟩) = 0 := by
  refine ⟨rfl, ?_, ?_⟩ <;> decide

/-- Claim C1 (amended): in the `part_000` client variant, every parsed
inbound message fires, after optional caching, first the event named by its
exact `type` string and then the generic `"message"` event, both with the
full message as payload; when the type is not itself the string `"message"`,
each of the two fires exactly once. (The `ShoehiveClient.js` variant instead
fires fixed constant-named events and no generic `"message"` event, per the
counterexample.) -/
theorem C1_amended_events (st : ClientState) (m : Msg) (h : m.type ≠ "message") :
    firedList (handleMessagePart000 m st).2
      = [(m.type, Payload.msg m), ("message", Payload.msg m)]
    ∧ (firedList (handleMessagePart000 m st).2).count (m.type, Payload.msg m) = 1
    ∧ (firedList (handleMessagePart000 m st).2).count ("message", Payload.msg m) = 1 := by
  have key : ∀ st' : ClientState,
      firedList (triggerEvent st' m.type (Payload.msg m)
          ++ triggerEvent st' "message" (Payload.msg m))
        = [(m.type, Payload.msg m), ("message", Payload.msg m)] := by
    intro st'
    rw [firedList_append, firedList_triggerEvent, firedList_triggerEvent]
    rfl
  have hfl : firedList (handleMessagePart000 m st).2
      = [(m.type, Payload.msg m), ("message", Payload.msg m)] := key _
  refine ⟨hfl, ?_, ?_⟩ <;> rw [hfl] <;> simp [List.count_cons, h, Ne.symm h]

/-- Claim C1 (witness for the amended theorem): the spec's §8 scenario
message `{type: "lobby:state", ...}` through the `part_000` variant. -/
theorem C1_amended_witness :
    ("lobby:state" : String) ≠ "message"
    ∧ firedList (handleMessagePart000 ⟨"lobby:state", 3⟩ initClient).2
        = [("lobby:state", Payload.msg ⟨"lobby:state", 3⟩),
           ("message", Payload.msg ⟨"lobby:state", 3⟩)] :=
  ⟨by decide, (C1_amended_events initClient ⟨"lobby:state", 3⟩ (by decide)).1⟩

/-- Claim C2 (code bug): starting from a live default-option connection, a
server-side close schedules a retry (delay 1000 ms with the attempt counter
at 1); the user then calls `disconnect()` before the timer fires. When the
stale timer fires it calls `connect()` unguarded: the old handle is CLOSED
(`.js` variant) or cleared (`part_000` variant), so the guard does not stop
it and a brand-new transport handle is constructed in both variants — a new
connection attempt occurs, contradicting the claim that the retry callback
performs none. -/
theorem C2_stale_retry_reconnects :
    (closeStep 1006 "server closed" c2Start).2.2 = some 1000
    ∧ (connectJs 1 (disconnectJs (closeStep 1006 "server closed" c2Start).1)).2 = true
    ∧ (connectJs 1 (disconnectJs (closeStep 1006 "server closed" c2Start).1)).1.socket
        = some ⟨1, ReadyState.CONNECTING⟩
    ∧ (connectPart000 1 true
        (disconnectPart000 (closeStep 1006 "server closed" c2Start).1)).2.1 = true := by
  refine ⟨?_, rfl, rfl, rfl⟩
  norm_num [closeStep, c2Start, initClient]

/-- Claim C3: in a run of consecutive failed connection attempts with
auto-reconnect enabled, base delay `d` and maximum `N`, starting from a
fresh attempt counter, the `k`-th close event (k = 1..N) schedules a retry
after `d * 1.5^(k-1)`; the attempt counter reaches `N` and the next close
event schedules no retry; and each close handler increments the counter
before computing the delay from the incremented value. -/
theorem reconnect_backoff_spec (st : ClientState) (N : ℕ)
    (hA : st.autoReconnect = true) (h0 : st.reconnectAttempts = 0)
    (hN : st.maxReconnectAttempts = N) :
    closeDelays N st
      = (List.range N).map (fun i => some (st.reconnectDelay * ((3 : ℚ) / 2) ^ i))
    ∧ (closeIter N st).reconnectAttempts = st.maxReconnectAttempts
    ∧ (closeStep 1006 "" (closeIter N st)).2.2 = none
    ∧ (∀ st' : ClientState, st'.autoReconnect = true →
        st'.reconnectAttempts < st'.maxReconnectAttempts →
        (closeStep 1006 "" st').1.reconnectAttempts = st'.reconnectAttempts + 1
        ∧ (closeStep 1006 "" st').2.2
            = some (st'.reconnectDelay
                * ((3 : ℚ) / 2) ^ ((st'.reconnectAttempts + 1) - 1))) := by
  obtain ⟨hd, ha, hA2, hm, _⟩ :=
    closeDelays_run N st hA (by omega)
  refine ⟨?_, ?_, ?_, ?_⟩
  · rw [hd]
    apply List.map_congr_left
    intro i _
    rw [h0]
    simp
  · omega
  · apply closeStep_exhausted
    rw [ha, hA2, hm, hA, h0, hN]
    simp
  · intro st' hA' hlt'
    have hstep := closeStep_retry st' hA' hlt'
    constructor
    · rw [hstep]
      rfl
    · rw [hstep]
      simp

/-- Claim C3 (witness): the spec's §8 scenario — maxReconnectAttempts = 2,
base delay 100: exactly two retries are scheduled, at 100 ms and 150 ms,
and the next close event schedules none. -/
theorem reconnect_backoff_witness :
    closeDelays 2 { initClient with maxReconnectAttempts := 2, reconnectDelay := 100 }
      = [some 100, some 150]
    ∧ (closeStep 1006 "" (closeIter 2
        { initClient with maxReconnectAttempts := 2, reconnectDelay := 100 })).2.2
      = none := by
  have h := reconnect_backoff_spec
    { initClient with maxReconnectAttempts := 2, reconnectDelay := 100 } 2 rfl rfl rfl
  refine ⟨h.1.trans ?_, h.2.2.1⟩
  norm_num [List.range_succ]

/-- Claim C4: `sendCommand(action, data)` while not connected returns
`false` with no transport write and no state change (and, being a total
function, no exception); while connected it writes the single flat
`{action, ...data}` frame and returns `true`, unless the synchronous
serialize/write throws, in which case it is caught and `false` is returned
with no recorded write. -/
theorem sendCommand_spec (sendOk : Bool) (action : String)
    (data : List (String × Nat)) (st : ClientState) :
    (st.connected = false →
        sendCommand sendOk action data st = (st, false, []))
    ∧ (st.connected = true → sendOk = true →
        sendCommand sendOk action data st = (st, true, [⟨action, data⟩]))
    ∧ (st.connected = true → sendOk = false →
        sendCommand sendOk action data st = (st, false, [])) := by
  refine ⟨?_, ?_, ?_⟩
  · intro h
    simp [sendCommand, h]
  · intro h hok
    simp [sendCommand, h, hok]
  · intro h hok
    simp [sendCommand, h, hok]

/-- Claim C4 (witness): a disconnected client drops the command, a
connected one writes it, and a connected one whose write throws returns
`false`. -/
theorem sendCommand_witness :
    sendCommand true "player:state:get" [] initClient = (initClient, false, [])
    ∧ sendCommand true "player:state:get" [] { initClient with connected := true }
        = ({ initClient with connected := true }, true, [⟨"player:state:get", []⟩])
    ∧ sendCommand false "player:state:get" [] { initClient with connected := true }
        = ({ initClient with connected := true }, false, []) :=
  ⟨(sendCommand_spec true "player:state:get" [] initClient).1 rfl,
   (sendCommand_spec true "player:state:get" []
      { initClient with connected := true }).2.1 rfl rfl,
   (sendCommand_spec false "player:state:get" []
      { initClient with connected := true }).2.2 rfl rfl⟩

/-- Claim C5 (counterexample): in the `ShoehiveClient.js` variant a
malformed inbound payload is caught and only logged — zero events fire, in
particular zero parseError `"error"` events, refuting "exactly one
parseError event fires" as a property of this client. -/
theorem C5_counterexample :
    onMessageJs Inbound.malformed initClient = (initClient, [])
    ∧ (firedList (onMessageJs Inbound.malformed initClient).2).count
        ("error", Payload.errObj "parseError") = 0 :=
  ⟨rfl, rfl⟩

/-- Claim C5 (amended): for every malformed inbound payload, no cached
state slot (indeed no client field) changes in either variant; the
`part_000` variant fires exactly one `"error"` event, of kind parseError,
and no other event, while the `ShoehiveClient.js` variant fires no event at
all (the parse failure is only logged). -/
theorem parseError_spec (st : ClientState) :
    (onMessagePart000 Inbound.malformed st).1 = st
    ∧ firedList (onMessagePart000 Inbound.malformed st).2
        = [("error", Payload.errObj "parseError")]
    ∧ onMessageJs Inbound.malformed st = (st, []) :=
  ⟨rfl, firedList_triggerEvent st "error" (Payload.errObj "parseError"), rfl⟩

/-- Claim C6: `connect()` called while the existing handle is OPEN or
CONNECTING is rejected in both variants with no side effect: the entire
client state (handle, connected flag, attempt counter, subscriptions) is
returned unchanged, no new transport handle is constructed, the `.js`
variant just returns (`undefined`) and the `part_000` variant returns
`false` having fired nothing. -/
theorem connect_guard_spec (st : ClientState) (s : Socket) (fresh : Nat)
    (creationOk : Bool) (hs : st.socket = some s)
    (hr : s.readyState = ReadyState.OPEN ∨ s.readyState = ReadyState.CONNECTING) :
    connectJs fresh st = (st, false)
    ∧ connectPart000 fresh creationOk st = (st, false, []) := by
  constructor
  · simp [connectJs, hs, hr]
  · have hr2 : s.readyState = ReadyState.CONNECTING ∨ s.readyState = ReadyState.OPEN :=
      hr.symm
    simp [connectPart000, hs, hr2]

/-- Claim C6 (witness): a client holding an OPEN handle rejects a new
`connect()` in both variants. -/
theorem connect_guard_witness :
    connectJs 1 { initClient with socket := some ⟨0, ReadyState.OPEN⟩ }
      = ({ initClient with socket := some ⟨0, ReadyState.OPEN⟩ }, false)
    ∧ connectPart000 1 true { initClient with socket := some ⟨0, ReadyState.OPEN⟩ }
      = ({ initClient with socket := some ⟨0, ReadyState.OPEN⟩ }, false, []) :=
  connect_guard_spec { initClient with socket := some ⟨0, ReadyState.OPEN⟩ }
    ⟨0, ReadyState.OPEN⟩ 1 true rfl (Or.inl rfl)

/-- Claim C7: registering distinct callbacks `c1` then `c2` for
`"connected"` on a client with no prior `"connected"` handlers, then
invoking the unsubscribe closure returned for `c1`, leaves the handler list
exactly `[c2]`, so the next `"connected"` event invokes only `c2`; and in
general firing an event invokes all currently-registered callbacks for that
name in registration (list) order. -/
theorem on_unsubscribe_spec (st : ClientState) (c1 c2 : Nat) (d : Payload)
    (h0 : getHandlers st.eventHandlers "connected" = [])
    (hne : c1 ≠ c2) :
    getHandlers (unsubscribe "connected" c1
        (onEvent "connected" c2 (onEvent "connected" c1 st))).eventHandlers
        "connected" = [c2]
    ∧ triggerEvent (unsubscribe "connected" c1
        (onEvent "connected" c2 (onEvent "connected" c1 st))) "connected" d
      = [Eff.fired "connected" d, Eff.invoke c2 d]
    ∧ (∀ (st' : ClientState) (e : String) (p : Payload),
        triggerEvent st' e p
          = Eff.fired e p
              :: (getHandlers st'.eventHandlers e).map (fun cb => Eff.invoke cb p)) := by
  have hlist : getHandlers (unsubscribe "connected" c1
      (onEvent "connected" c2 (onEvent "connected" c1 st))).eventHandlers
      "connected" = [c2] := by
    simp only [onEvent, unsubscribe, getHandlers_setHandlers, h0]
    simp [List.filter, hne, Ne.symm hne]
  refine ⟨hlist, ?_, fun st' e p => rfl⟩
  rw [triggerEvent, hlist]
  rfl

/-- Claim C7 (witness): callbacks 0 and 1 on a fresh client. -/
theorem on_unsubscribe_witness :
    getHandlers (unsubscribe "connected" 0
        (onEvent "connected" 1 (onEvent "connected" 0 initClient))).eventHandlers
        "connected" = [1]
    ∧ triggerEvent (unsubscribe "connected" 0
        (onEvent "connected" 1 (onEvent "connected" 0 initClient))) "connected"
        Payload.noData
      = [Eff.fired "connected" Payload.noData, Eff.invoke 1 Payload.noData] :=
  ⟨(on_unsubscribe_spec initClient 0 1 Payload.noData rfl (by decide)).1,
   (on_unsubscribe_spec initClient 0 1 Payload.noData rfl (by decide)).2.1⟩

/-- Claim C8 (code bug): the `useShoehive` hook of
`src/hooks/ShoehiveConstants.js` reads the context of
`src/context/ShoehiveContext.js`, whose `createContext` default is a
non-null stub object; outside any provider `useContext` therefore yields
that truthy stub, the `!context` guard never fires, and the hook returns
the stub instead of throwing. (Inside a provider it returns the provider's
value; the `.jsx` variant, whose own context defaults to `null`, does throw
outside a provider, matching the claimed contract.) -/
theorem useShoehive_guard_divergence :
    useShoehiveJs none = Except.ok shoehiveDefaultStub
    ∧ (∀ v : Nat, useShoehiveJs (some v) = Except.ok (CtxVal.obj v))
    ∧ useShoehiveJsx none
        = Except.error "useShoehive must be used within a ShoehiveProvider" :=
  ⟨rfl, fun _ => rfl, rfl⟩

/-- Claim C9: handling one parsed inbound message mutates at most the
single cached state slot whose type matches the message and leaves the
other two slots, the connected flag, the reconnect-attempt counter, the
handle, the auto-reconnect flag and the subscription table unchanged, in
both client variants; a message of unrecognized type changes no slot at
all. -/
theorem handleMessage_frame_spec (m : Msg) (st : ClientState) :
    ((handleMessageJs m st).1.connected = st.connected
    ∧ (handleMessageJs m st).1.reconnectAttempts = st.reconnectAttempts
    ∧ (handleMessageJs m st).1.socket = st.socket
    ∧ (handleMessageJs m st).1.autoReconnect = st.autoReconnect
    ∧ (handleMessageJs m st).1.eventHandlers = st.eventHandlers
    ∧ (handleMessageJs m st).1.playerState
        = (if m.type = MSG_PLAYER_STATE then some m else st.playerState)
    ∧ (handleMessageJs m st).1.lobbyState
        = (if m.type = MSG_LOBBY_STATE then some m else st.lobbyState)
    ∧ (handleMessageJs m st).1.tableState
        = (if m.type = MSG_TABLE_STATE then some m else st.tableState))
    ∧ ((handleMessagePart000 m st).1.connected = st.connected
    ∧ (handleMessagePart000 m st).1.reconnectAttempts = st.reconnectAttempts
    ∧ (handleMessagePart000 m st).1.socket = st.socket
    ∧ (handleMessagePart000 m st).1.autoReconnect = st.autoReconnect
    ∧ (handleMessagePart000 m st).1.eventHandlers = st.eventHandlers
    ∧ (handleMessagePart000 m st).1.playerState
        = (if m.type = MSG_PLAYER_STATE then some m else st.playerState)
    ∧ (handleMessagePart000 m st).1.lobbyState
        = (if m.type = MSG_LOBBY_STATE then some m else st.lobbyState)
    ∧ (handleMessagePart000 m st).1.tableState
        = (if m.type = MSG_TABLE_STATE then some m else st.tableState)) := by
  constructor
  · simp only [handleMessageJs]
    split_ifs with h1 h2 h3 h4 <;>
      simp_all [MSG_PLAYER_STATE, MSG_LOBBY_STATE, MSG_TABLE_STATE, MSG_ERROR]
  · simp only [handleMessagePart000]
    split_ifs with h1 h2 h3 <;>
      simp_all [MSG_PLAYER_STATE, MSG_LOBBY_STATE, MSG_TABLE_STATE]

/-- Claim C10: if a callback reference occurs at least twice in an event's
handler list (registered repeatedly via `on()`), invoking one returned
unsubscribe closure removes every occurrence (removal filters by reference
equality), so the callback is invoked zero times — not n-1 times — when the
event next fires. -/
theorem unsubscribe_removes_all_spec (st : ClientState) (e : String) (cb : Nat)
    (d : Payload) (h2 : 2 ≤ (getHandlers st.eventHandlers e).count cb) :
    (getHandlers (unsubscribe e cb st).eventHandlers e).count cb = 0
    ∧ (triggerEvent (unsubscribe e cb st) e d).count (Eff.invoke cb d) = 0 := by
  have hlist : getHandlers (unsubscribe e cb st).eventHandlers e
      = (getHandlers st.eventHandlers e).filter (fun c => c ≠ cb) := by
    simp only [unsubscribe, getHandlers_setHandlers]
  constructor
  · rw [hlist]
    rw [List.count_eq_zero]
    intro hmem
    have := List.of_mem_filter hmem
    simp at this
  · rw [triggerEvent, hlist]
    rw [List.count_eq_zero]
    intro hmem
    rcases List.mem_cons.mp hmem with hh | ht
    · exact Eff.noConfusion hh
    · obtain ⟨x, hx, hinj⟩ := List.mem_map.mp ht
      injection hinj with hx1 hx2
      subst hx1
      have := List.of_mem_filter hx
      simp at this


/-- Claim C10 (witness): callback 5 registered twice for `"x"`; one
unsubscribe removes both occurrences and the next `"x"` event does not
invoke it. -/
theorem unsubscribe_removes_all_witness :
    (getHandlers (unsubscribe "x" 5
        { initClient with eventHandlers := [("x", [5, 5])] }).eventHandlers "x").count 5 = 0
    ∧ (triggerEvent (unsubscribe "x" 5
        { initClient with eventHandlers := [("x", [5, 5])] }) "x" Payload.noData).count
        (Eff.invoke 5 Payload.noData) = 0 :=
  unsubscribe_removes_all_spec
    { initClient with eventHandlers := [("x", [5, 5])] } "x" 5 Payload.noData (by decide)

end Shoehive
